import Mathlib

/-!
Shallow embedding of the juju `state` error-classification helpers and of the
provisioning agent's watch-driven reconfiguration controller
(`src/state/errors.go`).

The first part models the `IsCharmAlreadyUploadedError`,
`IsProviderIDNotUniqueError` and `IsParentDeviceHasChildrenError` predicates,
including the unchecked type assertion `err.(error)` that panics on a non-nil
input whose dynamic type does not implement `error`.

The second part models the `Provisioner`: the two watcher-holder structs
(`environment` and `machines`, both instances of the same lazy
subscribe/invalidate shape), the outer `loop` (Idle state), the `innerLoop`
(Active state), and `Stop`.  The controller goroutine is embedded as a step
function on an explicit state, driven by a sequence of events (tomb dying,
configuration channel delivery/close, machine channel delivery/close).
-/

namespace JujuState

/-! ### Error classification (`IsCharmAlreadyUploadedError` and friends) -/

/-- Dynamic type tag of a concrete (unwrapped) Go error value. -/
inductive ErrTag
  | charmAlreadyUploaded
  | providerIDNotUnique
  | parentDeviceHasChildren
  | otherErr
deriving DecidableEq, Repr

/-- Go `error` value: either a concrete error with a dynamic type tag, or a
juju `errors.Err` wrapper (from `errors.Trace` / `errors.Annotate`), which
stores the cause of the error it wraps. -/
inductive GoErr
  | base (tag : ErrTag)
  | wrapped (inner : GoErr)
deriving DecidableEq, Repr

/-- Model of `errors.Cause`: the cause of a wrapped error is the original
(innermost) error; an unwrapped error is its own cause.  For a non-nil error
the result is never nil. -/
def GoErr.cause : GoErr → GoErr
  | .base t => .base t
  | .wrapped e => e.cause

/-- Dynamic type of an error value, as tested by the checked type assertion
`value.(*ErrX)`: a `base` error exposes its tag, a wrapper's dynamic type is
the wrapper type (`*errors.Err`), which matches none of the `ErrX` types. -/
def GoErr.tag : GoErr → Option ErrTag
  | .base t => some t
  | .wrapped _ => none

/-- Go `interface{}` argument of the predicates: nil, a value implementing
`error`, or a non-nil value whose dynamic type does not implement `error`. -/
inductive GoVal
  | goNil
  | goErr (e : GoErr)
  | goNonErr (n : Nat)
deriving DecidableEq, Repr

/-- Result of running a predicate: a boolean, or a runtime panic (raised by
the unchecked type assertion `err.(error)`). -/
inductive GoResult
  | ok (b : Bool)
  | runtimePanic
deriving DecidableEq, Repr

/-- Model of `IsCharmAlreadyUploadedError` (src/state/errors.go:30).  A nil
input returns false; otherwise `errors.Cause(err.(error))` is taken (the
unchecked assertion panics when the dynamic type is not an `error`), the
non-nil cause replaces the value, and the checked assertion
`value.(*ErrCharmAlreadyUploaded)` produces the boolean. -/
def IsCharmAlreadyUploadedError : GoVal → GoResult
  | .goNil => .ok false
  | .goNonErr _ => .runtimePanic
  | .goErr e => .ok (e.cause.tag == some ErrTag.charmAlreadyUploaded)

/-- Model of `IsProviderIDNotUniqueError` (src/state/errors.go:89), same shape
as `IsCharmAlreadyUploadedError` with target type `*ErrProviderIDNotUnique`. -/
def IsProviderIDNotUniqueError : GoVal → GoResult
  | .goNil => .ok false
  | .goNonErr _ => .runtimePanic
  | .goErr e => .ok (e.cause.tag == some ErrTag.providerIDNotUnique)

/-- Model of `IsParentDeviceHasChildrenError` (src/state/errors.go:124), same
shape with target type `*ErrParentDeviceHasChildren`. -/
def IsParentDeviceHasChildrenError : GoVal → GoResult
  | .goNil => .ok false
  | .goNonErr _ => .runtimePanic
  | .goErr e => .ok (e.cause.tag == some ErrTag.parentDeviceHasChildren)

/-! ### Resilient subscription (the `environment` / `machines` structs)

Both Go structs have the same shape: a possibly-nil watcher pointer, a
`changes` method that lazily creates the watcher and returns its channel, and
an `invalidate` method that stops the watcher (logging the stop result) and
resets the pointer to nil.  Watchers are identified by allocation number so
that liveness of backing watchers can be tracked. -/

structure SubState where
  /-- The cached watcher (`e.watcher`), `none` when unsubscribed. -/
  watcher : Option Nat
  /-- Next fresh watcher id handed out by the store on `WatchEnvironConfig` /
  `WatchMachines`. -/
  nextId : Nat
  /-- Ids of backing watchers currently live (created and not yet stopped). -/
  live : List Nat
  /-- Ids whose `Stop()` result has been logged by `invalidate`. -/
  stoppedLog : List Nat
deriving DecidableEq, Repr

/-- A freshly constructed watcher-holder: nil watcher, nothing live. -/
def SubState.subInit : SubState := ⟨none, 0, [], []⟩

/-- Model of `(*environment).changes` / `(*machines).changes`
(src/state/errors.go:199,223): if the watcher is nil, establish a new backing
watch and cache it; return the (id of the) channel of the cached watcher. -/
def SubState.changes (s : SubState) : SubState × Nat :=
  match s.watcher with
  | some w => (s, w)
  | none =>
      ({ s with watcher := some s.nextId
              , nextId := s.nextId + 1
              , live := s.nextId :: s.live }, s.nextId)

/-- Model of `(*environment).invalidate` / `(*machines).invalidate`
(src/state/errors.go:207,231): if a watcher is cached, stop it (the result of
`Stop()` is logged, not returned) and reset to nil; otherwise do nothing.
The function returns only the new state: no error is propagated. -/
def SubState.invalidate (s : SubState) : SubState :=
  match s.watcher with
  | some w =>
      { s with watcher := none
             , live := s.live.erase w
             , stoppedLog := s.stoppedLog ++ [w] }
  | none => s

/-- Operations a client may perform on a watcher-holder. -/
inductive SubOp
  | chg
  | inval
deriving DecidableEq, Repr

/-- Apply one operation to a watcher-holder state. -/
def SubState.apply (s : SubState) : SubOp → SubState
  | .chg => s.changes.1
  | .inval => s.invalidate

/-- Run a sequence of operations on a watcher-holder state. -/
def runSub (s : SubState) (ops : List SubOp) : SubState :=
  ops.foldl SubState.apply s

/-! ### The Provisioner controller -/

/-- A configuration snapshot delivered on the environ-config channel.
`buildOk` says whether `environs.NewEnviron(config.Map())` succeeds on it,
`parseOk` whether `environs.NewConfig(change.Map())` succeeds, and `val` is
the payload that ends up as the environment's applied configuration. -/
structure ConfigSnapshot where
  buildOk : Bool
  parseOk : Bool
  val : Nat
deriving DecidableEq, Repr

/-- A live environment handle (`environs.Environ`): `envId` records which
construction call produced it, `cfg` its currently applied configuration. -/
structure Env where
  envId : Nat
  cfg : Nat
deriving DecidableEq, Repr

/-- Control location of the Provisioner goroutine: `idle` is the outer `loop`
(no usable environment), `active` is `innerLoop` (environment present),
`done` means the goroutine has returned (tomb Done). -/
inductive Mode
  | idle
  | active
  | done
deriving DecidableEq, Repr

/-- One event observed by the goroutine's select: the tomb's dying channel
firing, a receive on the environ-config channel (`none` = channel closed), or
a receive on the machines channel (`none` = channel closed). -/
inductive Event
  | cancel
  | configEv (c : Option ConfigSnapshot)
  | machineEv (m : Option Nat)
deriving DecidableEq, Repr

/-- The Provisioner's state: control mode, the `environ` field, the two
watcher-holders, counters for the externally observable calls
(`environs.NewEnviron` successes, `SetConfig` calls, `processMachines`
calls, `log.Printf` calls in the loops), and the tomb's kill state. -/
structure PState where
  mode : Mode
  environ : Option Env
  envSub : SubState
  machSub : SubState
  constructions : Nat
  setConfigCalls : Nat
  machineDispatches : Nat
  loopLogs : Nat
  tombDying : Bool
  tombReason : Option Nat
deriving DecidableEq, Repr

/-- Model of `NewProvisioner` (src/state/errors.go:239): fresh watcher-holders,
no environment, goroutine started in the outer loop. -/
def PState.pInit : PState :=
  ⟨.idle, none, SubState.subInit, SubState.subInit, 0, 0, 0, 0, false, none⟩

/-- One iteration of the Provisioner goroutine, as written in `loop`
(src/state/errors.go:249) and `innerLoop` (src/state/errors.go:272), servicing
one event.  Receiving on a channel first evaluates `changes()` on the
corresponding watcher-holder, which lazily (re-)subscribes.  In `idle` the
select has no machines case, so machine events are not serviced there.  In
`innerLoop`, a closed config channel is invalidated and the loop `continue`s:
the goroutine stays in `innerLoop` and `p.environ` is untouched.

The `cancel` event is the select servicing `<-p.tomb.Dying()`.  That channel
is ready only once the tomb has been killed, so while `tombDying` is false a
`cancel` event cannot occur and is a no-op.  Once dying, `loop`'s dying case
(src/state/errors.go:253) returns and the goroutine exits (`done`), but
`innerLoop`'s dying case (src/state/errors.go:275) only returns into `loop`'s
select: the goroutine is then back in the outer wait (`idle`) with
`p.environ` still set, and — since a select chooses among its ready cases —
it may service a further pending configuration event there before the outer
dying case is taken. -/
def step (s : PState) (e : Event) : PState :=
  match s.mode with
  | .done => s
  | .idle =>
      match e with
      | .cancel => if s.tombDying then { s with mode := .done } else s
      | .configEv none =>
          { s with envSub := s.envSub.changes.1.invalidate }
      | .configEv (some config) =>
          if config.buildOk then
            { s with envSub := s.envSub.changes.1
                   , environ := some { envId := s.constructions, cfg := config.val }
                   , constructions := s.constructions + 1
                   , loopLogs := s.loopLogs + 1
                   , mode := .active }
          else
            { s with envSub := s.envSub.changes.1
                   , environ := none
                   , loopLogs := s.loopLogs + 1 }
      | .machineEv _ => s
  | .active =>
      match e with
      | .cancel => if s.tombDying then { s with mode := .idle } else s
      | .configEv none =>
          { s with envSub := s.envSub.changes.1.invalidate }
      | .configEv (some change) =>
          if change.parseOk then
            { s with envSub := s.envSub.changes.1
                   , environ := s.environ.map fun env => { env with cfg := change.val }
                   , setConfigCalls := s.setConfigCalls + 1
                   , loopLogs := s.loopLogs + 1 }
          else
            { s with envSub := s.envSub.changes.1
                   , loopLogs := s.loopLogs + 1 }
      | .machineEv none =>
          { s with machSub := s.machSub.changes.1.invalidate }
      | .machineEv (some _) =>
          { s with machSub := s.machSub.changes.1
                 , machineDispatches := s.machineDispatches + 1 }

/-- Run the goroutine over a sequence of events. -/
def run (s : PState) (es : List Event) : PState :=
  es.foldl step s

/-- Model of `tomb.Kill`: record the death reason and mark dying; later kills
do not overwrite the first reason. -/
def Kill (s : PState) (reason : Option Nat) : PState :=
  if s.tombDying then s else { s with tombDying := true, tombReason := reason }

/-- State after the first two actions of `(*Provisioner).Stop`
(src/state/errors.go:301): `p.tomb.Kill(nil)` followed by the proactive
`p.environment.invalidate()` and `p.machines.invalidate()`. -/
def stopRequested (s : PState) : PState :=
  { Kill s none with envSub := (Kill s none).envSub.invalidate
                   , machSub := (Kill s none).machSub.invalidate }

/-- Model of `(*Provisioner).Stop` (src/state/errors.go:301):
`p.tomb.Kill(nil)`, invalidate both watcher-holders, then `p.tomb.Wait()` —
`Wait` blocks until the goroutine has exited and yields the death reason (the
terminal error).  The embedding drives the goroutine with the interleaving in
which each remaining select takes its now-ready dying case: from `innerLoop`
that first returns into `loop`, whose dying case then exits, so two dying
observations always reach `done` (fewer steps are needed from `idle` or
`done`, where the extra `cancel` steps are identities). -/
def Stop (s : PState) : PState × Option Nat :=
  let s3 := step (step (stopRequested s) .cancel) .cancel
  (s3, s3.tombReason)

/-! ### Derived predicates and concrete states used in the development -/

/-- Watcher-holder well-formedness: the live backing watchers are exactly the
cached one (so there is one when subscribed and none when unsubscribed). -/
def SubWF (s : SubState) : Prop :=
  s.live = s.watcher.toList

/-- Controller invariant: in `idle` no environment handle is held, in `active`
one is. -/
def EnvInv (s : PState) : Prop :=
  (s.mode = Mode.idle → s.environ = none) ∧
  (s.mode = Mode.active → s.environ.isSome = true)

/-- A snapshot on which both construction and parsing succeed. -/
def snapGood : ConfigSnapshot := ⟨true, true, 1⟩

/-- A second snapshot on which both construction and parsing succeed. -/
def snapGood2 : ConfigSnapshot := ⟨true, true, 2⟩

/-- A snapshot that fails `environs.NewConfig` (parse/validation failure). -/
def snapBadParse : ConfigSnapshot := ⟨true, false, 3⟩

/-- A snapshot that fails `environs.NewEnviron` (construction failure). -/
def snapBadBuild : ConfigSnapshot := ⟨false, true, 4⟩

/-- A concrete reachable `active` state: one valid snapshot delivered. -/
def activeState : PState := run PState.pInit [.configEv (some snapGood)]

/-- Trace delivering one valid snapshot and then closing the configuration
channel while the controller is `active`. -/
def c1trace : List Event := [.configEv (some snapGood), .configEv none]

/-! ### Theorems -/

theorem invalidate_watcher_none (t : SubState) : t.invalidate.watcher = none := by
  cases hw : t.watcher <;> simp [SubState.invalidate, hw]

theorem invalidate_of_watcher_none (t : SubState) (h : t.watcher = none) :
    t.invalidate = t := by
  simp [SubState.invalidate, h]

theorem step_done (s : PState) (e : Event) (h : s.mode = Mode.done) :
    step s e = s := by
  simp [step, h]

theorem run_done (es : List Event) (s : PState) (h : s.mode = Mode.done) :
    run s es = s := by
  induction es generalizing s with
  | nil => rfl
  | cons e es ih =>
      calc run s (e :: es) = run (step s e) es := rfl
        _ = run s es := by rw [step_done s e h]
        _ = s := ih s h

theorem step_tomb (s : PState) (e : Event) :
    (step s e).tombDying = s.tombDying ∧ (step s e).tombReason = s.tombReason := by
  cases hm : s.mode with
  | done => simp [step, hm]
  | idle =>
      cases e with
      | cancel => by_cases hd : s.tombDying <;> simp [step, hm, hd]
      | machineEv m => simp [step, hm]
      | configEv c =>
          cases c with
          | none => simp [step, hm]
          | some config => by_cases hb : config.buildOk <;> simp [step, hm, hb]
  | active =>
      cases e with
      | cancel => by_cases hd : s.tombDying <;> simp [step, hm, hd]
      | machineEv m => cases m <;> simp [step, hm]
      | configEv c =>
          cases c with
          | none => simp [step, hm]
          | some change => by_cases hp : change.parseOk <;> simp [step, hm, hp]

theorem run_tomb (es : List Event) (s : PState) :
    (run s es).tombDying = s.tombDying ∧ (run s es).tombReason = s.tombReason := by
  induction es generalizing s with
  | nil => exact ⟨rfl, rfl⟩
  | cons e es ih =>
      have h := step_tomb s e
      have h2 := ih (step s e)
      exact ⟨h2.1.trans h.1, h2.2.trans h.2⟩

theorem step_cancel_frame (s : PState) :
    (step s Event.cancel).environ = s.environ ∧
    (step s Event.cancel).envSub = s.envSub ∧
    (step s Event.cancel).machSub = s.machSub ∧
    (step s Event.cancel).setConfigCalls = s.setConfigCalls ∧
    (step s Event.cancel).machineDispatches = s.machineDispatches ∧
    (step s Event.cancel).constructions = s.constructions := by
  cases hm : s.mode <;> by_cases hd : s.tombDying <;> simp [step, hm, hd]

theorem step_cancel_not_dying (s : PState) (hd : s.tombDying = false) :
    step s Event.cancel = s := by
  cases hm : s.mode <;> simp [step, hm, hd]

theorem step_cancel_cancel_done (s : PState) (hd : s.tombDying = true) :
    (step (step s Event.cancel) Event.cancel).mode = Mode.done := by
  have hd1 : (step s Event.cancel).tombDying = true :=
    (step_tomb s Event.cancel).1.trans hd
  cases hm : s.mode with
  | done =>
      rw [step_done s Event.cancel hm, step_done s Event.cancel hm]
      exact hm
  | idle =>
      have h1 : (step s Event.cancel).mode = Mode.done := by simp [step, hm, hd]
      rw [step_done _ Event.cancel h1]
      exact h1
  | active =>
      have h1 : (step s Event.cancel).mode = Mode.idle := by simp [step, hm, hd]
      generalize hT : step s Event.cancel = t at h1 hd1
      simp [step, h1, hd1]

/-- C10: for the error-classification predicates `IsCharmAlreadyUploadedError`,
`IsProviderIDNotUniqueError` and `IsParentDeviceHasChildrenError`: a nil input
returns false; a non-nil error input is classified by its cause (wrapping an
error does not change its classification); and a non-nil input whose dynamic
type does not implement `error` panics via the unchecked assertion
`err.(error)` rather than returning false. -/
theorem c10_error_predicates :
    (IsCharmAlreadyUploadedError GoVal.goNil = .ok false ∧
     IsProviderIDNotUniqueError GoVal.goNil = .ok false ∧
     IsParentDeviceHasChildrenError GoVal.goNil = .ok false) ∧
    (∀ e : GoErr,
      IsCharmAlreadyUploadedError (.goErr e)
        = .ok (e.cause.tag == some ErrTag.charmAlreadyUploaded) ∧
      IsProviderIDNotUniqueError (.goErr e)
        = .ok (e.cause.tag == some ErrTag.providerIDNotUnique) ∧
      IsParentDeviceHasChildrenError (.goErr e)
        = .ok (e.cause.tag == some ErrTag.parentDeviceHasChildren) ∧
      IsCharmAlreadyUploadedError (.goErr (.wrapped e))
        = IsCharmAlreadyUploadedError (.goErr e) ∧
      IsProviderIDNotUniqueError (.goErr (.wrapped e))
        = IsProviderIDNotUniqueError (.goErr e) ∧
      IsParentDeviceHasChildrenError (.goErr (.wrapped e))
        = IsParentDeviceHasChildrenError (.goErr e)) ∧
    (∀ n : Nat,
      IsCharmAlreadyUploadedError (.goNonErr n) = .runtimePanic ∧
      IsProviderIDNotUniqueError (.goNonErr n) = .runtimePanic ∧
      IsParentDeviceHasChildrenError (.goNonErr n) = .runtimePanic) := by
  refine ⟨⟨rfl, rfl, rfl⟩, fun e => ?_, fun n => ⟨rfl, rfl, rfl⟩⟩
  refine ⟨rfl, rfl, rfl, ?_, ?_, ?_⟩ <;>
    simp [IsCharmAlreadyUploadedError, IsProviderIDNotUniqueError,
      IsParentDeviceHasChildrenError, GoErr.cause]

/-- C8: `invalidate()` on a watcher-holder with a live watcher stops it
(removing it from the live set and logging the stop result) and resets the
holder to unsubscribed; on an already-unsubscribed holder it is a no-op.  In
both cases no error is propagated: the function's only output is the new
state. -/
theorem c8_invalidate (s : SubState) :
    (∀ w, s.watcher = some w →
      s.invalidate = { s with watcher := none
                            , live := s.live.erase w
                            , stoppedLog := s.stoppedLog ++ [w] }) ∧
    (s.watcher = none → s.invalidate = s) := by
  constructor
  · intro w hw
    simp [SubState.invalidate, hw]
  · intro hn
    simp [SubState.invalidate, hn]

/-- C8 witness: `invalidate` at a concrete subscribed holder and at a concrete
unsubscribed holder. -/
theorem c8_invalidate_witness :
    ((⟨some 0, 1, [0], []⟩ : SubState).watcher = some 0 ∧
      SubState.invalidate ⟨some 0, 1, [0], []⟩ = ⟨none, 1, [], [0]⟩) ∧
    ((⟨none, 1, [], [0]⟩ : SubState).watcher = none ∧
      SubState.invalidate ⟨none, 1, [], [0]⟩ = ⟨none, 1, [], [0]⟩) := by
  refine ⟨⟨rfl, ?_⟩, ⟨rfl, ?_⟩⟩
  · have h := (c8_invalidate ⟨some 0, 1, [0], []⟩).1 0 rfl
    simpa using h
  · exact (c8_invalidate ⟨none, 1, [], [0]⟩).2 rfl

theorem subWF_apply (s : SubState) (op : SubOp) (h : SubWF s) :
    SubWF (s.apply op) := by
  cases op with
  | chg =>
      cases hw : s.watcher with
      | some w => simp_all [SubWF, SubState.apply, SubState.changes, hw]
      | none => simp_all [SubWF, SubState.apply, SubState.changes, hw]
  | inval =>
      cases hw : s.watcher with
      | some w => simp_all [SubWF, SubState.apply, SubState.invalidate, hw]
      | none => simp_all [SubWF, SubState.apply, SubState.invalidate, hw]

theorem subWF_runSub (ops : List SubOp) (s : SubState) (h : SubWF s) :
    SubWF (runSub s ops) := by
  induction ops generalizing s with
  | nil => exact h
  | cons op ops ih =>
      exact ih (s.apply op) (subWF_apply s op h)

/-- C7: calling `changes()` on an unsubscribed watcher-holder establishes
exactly one new backing watch (the fresh id is added to the live set) and
caches its channel; calling it while subscribed returns the cached channel
and leaves the state untouched (no duplicate subscription); and over any
sequence of `changes`/`invalidate` operations from a fresh holder, at most
one backing watcher is live at any time. -/
theorem c7_changes (s : SubState) :
    (s.watcher = none →
      s.changes = ({ s with watcher := some s.nextId
                          , nextId := s.nextId + 1
                          , live := s.nextId :: s.live }, s.nextId)) ∧
    (∀ w, s.watcher = some w → s.changes = (s, w)) ∧
    (∀ ops : List SubOp, (runSub SubState.subInit ops).live.length ≤ 1) := by
  refine ⟨?_, ?_, ?_⟩
  · intro hn
    simp [SubState.changes, hn]
  · intro w hw
    simp [SubState.changes, hw]
  · intro ops
    have h : SubWF (runSub SubState.subInit ops) :=
      subWF_runSub ops SubState.subInit rfl
    rw [SubWF] at h
    rw [h]
    cases (runSub SubState.subInit ops).watcher <;> simp

/-- C7 witness: `changes` at a concrete unsubscribed holder (establishes and
caches watcher 0) and then at the resulting subscribed holder (returns the
cached channel unchanged). -/
theorem c7_changes_witness :
    (SubState.subInit.watcher = none ∧
      SubState.subInit.changes = (⟨some 0, 1, [0], []⟩, 0)) ∧
    ((⟨some 0, 1, [0], []⟩ : SubState).watcher = some 0 ∧
      SubState.changes ⟨some 0, 1, [0], []⟩ = (⟨some 0, 1, [0], []⟩, 0)) := by
  refine ⟨⟨rfl, ?_⟩, ⟨rfl, ?_⟩⟩
  · have h := (c7_changes SubState.subInit).1 rfl
    simpa [SubState.subInit] using h
  · exact (c7_changes ⟨some 0, 1, [0], []⟩).2.1 0 rfl

theorem envInv_step (s : PState) (e : Event) (hd : s.tombDying = false)
    (h : EnvInv s) : EnvInv (step s e) := by
  obtain ⟨h1, h2⟩ := h
  cases hm : s.mode with
  | done =>
      simp only [step, hm]
      exact ⟨h1, h2⟩
  | idle =>
      have he := h1 hm
      cases e with
      | cancel =>
          rw [step_cancel_not_dying s hd]
          exact ⟨h1, h2⟩
      | machineEv m =>
          simp only [step, hm]
          exact ⟨h1, h2⟩
      | configEv c =>
          cases c with
          | none =>
              exact ⟨fun _ => by simp [step, hm, he], fun hx => by simp [step, hm] at hx⟩
          | some config =>
              by_cases hb : config.buildOk
              · exact ⟨fun hx => by simp [step, hm, hb] at hx, fun _ => by simp [step, hm, hb]⟩
              · exact ⟨fun _ => by simp [step, hm, hb], fun hx => by simp [step, hm, hb] at hx⟩
  | active =>
      have he := h2 hm
      cases e with
      | cancel =>
          rw [step_cancel_not_dying s hd]
          exact ⟨h1, h2⟩
      | machineEv m =>
          cases m with
          | none =>
              exact ⟨fun hx => by simp [step, hm] at hx, fun _ => by simp [step, hm, he]⟩
          | some d =>
              exact ⟨fun hx => by simp [step, hm] at hx, fun _ => by simp [step, hm, he]⟩
      | configEv c =>
          cases c with
          | none =>
              exact ⟨fun hx => by simp [step, hm] at hx, fun _ => by simp [step, hm, he]⟩
          | some change =>
              by_cases hp : change.parseOk
              · exact ⟨fun hx => by simp [step, hm, hp] at hx,
                  fun _ => by simp [step, hm, hp, he]⟩
              · exact ⟨fun hx => by simp [step, hm, hp] at hx,
                  fun _ => by simp [step, hm, hp, he]⟩

theorem envInv_run (es : List Event) (s : PState) (hd : s.tombDying = false)
    (h : EnvInv s) : EnvInv (run s es) := by
  induction es generalizing s with
  | nil => exact h
  | cons e es ih =>
      exact ih (step s e) ((step_tomb s e).1.trans hd) (envInv_step s e hd h)

/-- C3: along every run of the controller from its initial state, an
Environment handle is held exactly when the controller is `active` (none in
`idle`, one in `active` — in particular at most one handle at any time); and a
step increments the construction-success counter exactly when it is an
`idle` to `active` transition, so the controller moves to `active` exactly
once per successful construction. -/
theorem c3_active_iff_env (es : List Event) :
    ((run PState.pInit es).mode = Mode.idle → (run PState.pInit es).environ = none) ∧
    ((run PState.pInit es).mode = Mode.active →
      (run PState.pInit es).environ.isSome = true) ∧
    ((run PState.pInit es).environ.toList.length ≤ 1) ∧
    (∀ (s : PState) (e : Event),
      (step s e).constructions = s.constructions + 1 ↔
        s.mode = Mode.idle ∧ (step s e).mode = Mode.active) := by
  have hinv : EnvInv (run PState.pInit es) :=
    envInv_run es PState.pInit rfl
      ⟨fun _ => rfl, fun hx => by simp [PState.pInit] at hx⟩
  refine ⟨hinv.1, hinv.2, ?_, ?_⟩
  · cases (run PState.pInit es).environ <;> simp
  · intro s e
    cases hm : s.mode with
    | done => simp [step, hm]
    | idle =>
        cases e with
        | cancel => by_cases hd : s.tombDying <;> simp [step, hm, hd]
        | machineEv m => simp [step, hm]
        | configEv c =>
            cases c with
            | none => simp [step, hm]
            | some config =>
                by_cases hb : config.buildOk <;> simp [step, hm, hb]
    | active =>
        cases e with
        | cancel => by_cases hd : s.tombDying <;> simp [step, hm, hd]
        | machineEv m => cases m <;> simp [step, hm]
        | configEv c =>
            cases c with
            | none => simp [step, hm]
            | some change =>
                by_cases hp : change.parseOk <;> simp [step, hm, hp]

/-- C3 witness: the handle/mode invariant instantiated on a concrete run that
reaches `active`, and the construction/transition equivalence instantiated at
the initial state with a valid snapshot. -/
theorem c3_active_iff_env_witness :
    ((run PState.pInit [.configEv (some snapGood)]).mode = Mode.active) ∧
    ((run PState.pInit [.configEv (some snapGood)]).environ.isSome = true) ∧
    ((step PState.pInit (.configEv (some snapGood))).constructions
        = PState.pInit.constructions + 1 ↔
      PState.pInit.mode = Mode.idle ∧
        (step PState.pInit (.configEv (some snapGood))).mode = Mode.active) := by
  refine ⟨by decide, ?_, ?_⟩
  · exact (c3_active_iff_env [.configEv (some snapGood)]).2.1 (by decide)
  · exact (c3_active_iff_env []).2.2.2 PState.pInit (.configEv (some snapGood))

/-- C4: in `active`, a snapshot that fails parsing/validation is only logged:
`SetConfig` is not called, the controller stays in `active`, and the
environment (in particular its applied configuration) is unchanged. -/
theorem c4_invalid_snapshot_in_active (s : PState) (snap : ConfigSnapshot)
    (hm : s.mode = Mode.active) (hp : snap.parseOk = false) :
    (step s (.configEv (some snap))).mode = Mode.active ∧
    (step s (.configEv (some snap))).environ = s.environ ∧
    (step s (.configEv (some snap))).setConfigCalls = s.setConfigCalls ∧
    (step s (.configEv (some snap))).constructions = s.constructions ∧
    (step s (.configEv (some snap))).loopLogs = s.loopLogs + 1 := by
  simp [step, hm, hp]

/-- C4 witness: the theorem applied at a concrete reachable `active` state and
a concrete snapshot failing validation. -/
theorem c4_invalid_snapshot_witness :
    (activeState.mode = Mode.active ∧ snapBadParse.parseOk = false) ∧
    ((step activeState (.configEv (some snapBadParse))).mode = Mode.active ∧
     (step activeState (.configEv (some snapBadParse))).environ = activeState.environ ∧
     (step activeState (.configEv (some snapBadParse))).setConfigCalls
        = activeState.setConfigCalls ∧
     (step activeState (.configEv (some snapBadParse))).constructions
        = activeState.constructions ∧
     (step activeState (.configEv (some snapBadParse))).loopLogs
        = activeState.loopLogs + 1) :=
  ⟨⟨by decide, by decide⟩,
    c4_invalid_snapshot_in_active activeState snapBadParse (by decide) (by decide)⟩

/-- C5: in `idle`, a snapshot on which environment construction fails is only
logged: the controller stays in `idle` (it does not terminate), holds no
environment, and the construction-success counter is unchanged. -/
theorem c5_build_failure_in_idle (s : PState) (snap : ConfigSnapshot)
    (hm : s.mode = Mode.idle) (hb : snap.buildOk = false) :
    (step s (.configEv (some snap))).mode = Mode.idle ∧
    (step s (.configEv (some snap))).environ = none ∧
    (step s (.configEv (some snap))).constructions = s.constructions ∧
    (step s (.configEv (some snap))).loopLogs = s.loopLogs + 1 := by
  simp [step, hm, hb]

/-- C5 witness: the theorem applied at the initial state and a concrete
snapshot failing construction. -/
theorem c5_build_failure_witness :
    (PState.pInit.mode = Mode.idle ∧ snapBadBuild.buildOk = false) ∧
    ((step PState.pInit (.configEv (some snapBadBuild))).mode = Mode.idle ∧
     (step PState.pInit (.configEv (some snapBadBuild))).environ = none ∧
     (step PState.pInit (.configEv (some snapBadBuild))).constructions
        = PState.pInit.constructions ∧
     (step PState.pInit (.configEv (some snapBadBuild))).loopLogs
        = PState.pInit.loopLogs + 1) :=
  ⟨⟨by decide, by decide⟩,
    c5_build_failure_in_idle PState.pInit snapBadBuild (by decide) (by decide)⟩

/-- C6: in `active`, a close of the machine-set channel invalidates the
machine-set watcher-holder only: the controller stays in `active`, the
environment handle is untouched, and the configuration watcher-holder is not
modified. -/
theorem c6_machine_channel_close (s : PState) (hm : s.mode = Mode.active) :
    (step s (.machineEv none)).mode = Mode.active ∧
    (step s (.machineEv none)).environ = s.environ ∧
    (step s (.machineEv none)).machSub.watcher = none ∧
    (step s (.machineEv none)).envSub = s.envSub ∧
    (step s (.machineEv none)).constructions = s.constructions ∧
    (step s (.machineEv none)).setConfigCalls = s.setConfigCalls := by
  refine ⟨?_, ?_, ?_, ?_, ?_, ?_⟩ <;>
    simp [step, hm, invalidate_watcher_none]

/-- C6 witness: the theorem applied at a concrete reachable `active` state. -/
theorem c6_machine_channel_close_witness :
    (activeState.mode = Mode.active) ∧
    ((step activeState (.machineEv none)).mode = Mode.active ∧
     (step activeState (.machineEv none)).environ = activeState.environ ∧
     (step activeState (.machineEv none)).machSub.watcher = none ∧
     (step activeState (.machineEv none)).envSub = activeState.envSub ∧
     (step activeState (.machineEv none)).constructions = activeState.constructions ∧
     (step activeState (.machineEv none)).setConfigCalls = activeState.setConfigCalls) :=
  ⟨by decide, c6_machine_channel_close activeState (by decide)⟩

/-- C1 counterexample: deliver one valid snapshot (controller becomes
`active`, construction count 1), then close the configuration channel.  The
claim says the controller falls back to `idle` and discards the environment,
and that a subsequent valid snapshot causes one new construction call (total
2).  In the code the controller stays `active`, keeps the environment handle,
and the subsequent valid snapshot is applied via `SetConfig` with no new
construction (total stays 1). -/
theorem c1_config_close_counterexample :
    (run PState.pInit c1trace).mode = Mode.active ∧
    (run PState.pInit c1trace).environ = some ⟨0, 1⟩ ∧
    (run PState.pInit (c1trace ++ [.configEv (some snapGood2)])).constructions = 1 ∧
    (run PState.pInit (c1trace ++ [.configEv (some snapGood2)])).setConfigCalls = 1 := by
  decide

/-- C1 amended: when the controller is in `active` and the configuration
channel closes, it invalidates the configuration watcher-holder but remains
`active` and retains the environment handle; a subsequent valid snapshot is
applied to the existing environment via `SetConfig` (one application call)
and causes no new environment construction call. -/
theorem c1_config_close_in_active (s : PState) (hm : s.mode = Mode.active) :
    (step s (.configEv none)).mode = Mode.active ∧
    (step s (.configEv none)).environ = s.environ ∧
    (step s (.configEv none)).envSub.watcher = none ∧
    (step s (.configEv none)).constructions = s.constructions ∧
    (∀ snap : ConfigSnapshot, snap.parseOk = true →
      (step (step s (.configEv none)) (.configEv (some snap))).mode = Mode.active ∧
      (step (step s (.configEv none)) (.configEv (some snap))).constructions
        = s.constructions ∧
      (step (step s (.configEv none)) (.configEv (some snap))).setConfigCalls
        = s.setConfigCalls + 1) := by
  refine ⟨by simp [step, hm], by simp [step, hm],
    by simp [step, hm, invalidate_watcher_none], by simp [step, hm], ?_⟩
  intro snap hp
  refine ⟨?_, ?_, ?_⟩ <;> simp [step, hm, hp]

/-- C1 amended witness: the theorem applied at a concrete reachable `active`
state, with the subsequent-snapshot part instantiated at a concrete valid
snapshot. -/
theorem c1_config_close_witness :
    (activeState.mode = Mode.active ∧ snapGood2.parseOk = true) ∧
    ((step activeState (.configEv none)).mode = Mode.active ∧
     (step activeState (.configEv none)).environ = activeState.environ ∧
     (step (step activeState (.configEv none)) (.configEv (some snapGood2))).constructions
        = activeState.constructions ∧
     (step (step activeState (.configEv none)) (.configEv (some snapGood2))).setConfigCalls
        = activeState.setConfigCalls + 1) := by
  have h := c1_config_close_in_active activeState (by decide)
  have h5 := h.2.2.2.2 snapGood2 (by decide)
  exact ⟨⟨by decide, by decide⟩, h.1, h.2.1, h5.2.1, h5.2.2⟩

/-- C9 counterexample: kill the tomb while the controller is `active` (the
start of a `Stop` interleaving).  Servicing the dying case in the Active wait
(cancellation observed) does not exit the goroutine — `innerLoop`'s `return`
only lands back in `loop`'s select — and a pending configuration event that
is also ready can then be serviced there: `environs.NewEnviron` runs a second
time and the controller re-enters `innerLoop`.  This refutes the claim that
once cancellation is observed the goroutine exits without servicing any
further pending events. -/
theorem c9_cancellation_counterexample :
    (run (Kill activeState none) [Event.cancel]).mode = Mode.idle ∧
    (run (Kill activeState none)
        [Event.cancel, .configEv (some snapGood2)]).constructions = 2 ∧
    (run (Kill activeState none)
        [Event.cancel, .configEv (some snapGood2)]).mode = Mode.active := by
  decide

/-- C9 amended: once the tomb is dying, cancellation is checked at every
iteration of both waits — serviced in the Idle wait it exits the goroutine,
serviced in the Active wait it only returns control to the Idle wait, where
further pending configuration events may still be serviced; at most two
observations of cancellation reach the exit, after which no further pending
configuration or machine-set events are ever serviced; servicing the dying
case itself performs no construction, configuration-application or
machine-dispatch call. -/
theorem c9_cancellation (s : PState) (es : List Event) (hd : s.tombDying = true) :
    (s.mode = Mode.idle → (step s Event.cancel).mode = Mode.done) ∧
    (s.mode = Mode.active → (step s Event.cancel).mode = Mode.idle) ∧
    (step (step s Event.cancel) Event.cancel).mode = Mode.done ∧
    run (step (step s Event.cancel) Event.cancel) es
      = step (step s Event.cancel) Event.cancel ∧
    (step s Event.cancel).setConfigCalls = s.setConfigCalls ∧
    (step s Event.cancel).machineDispatches = s.machineDispatches ∧
    (step s Event.cancel).constructions = s.constructions := by
  have hf := step_cancel_frame s
  have hdd := step_cancel_cancel_done s hd
  refine ⟨?_, ?_, hdd, run_done es _ hdd,
    hf.2.2.2.1, hf.2.2.2.2.1, hf.2.2.2.2.2⟩
  · intro hm; simp [step, hm, hd]
  · intro hm; simp [step, hm, hd]

/-- C9 amended witness: the theorem applied at a killed concrete `active`
state — one dying observation lands in the Idle wait, a second one exits. -/
theorem c9_cancellation_witness :
    ((Kill activeState none).tombDying = true ∧
     (Kill activeState none).mode = Mode.active) ∧
    ((step (Kill activeState none) Event.cancel).mode = Mode.idle ∧
     (step (step (Kill activeState none) Event.cancel) Event.cancel).mode
        = Mode.done) := by
  have h := c9_cancellation (Kill activeState none) [] (by decide)
  exact ⟨⟨by decide, by decide⟩, h.2.1 (by decide), h.2.2.1⟩

theorem stopRequested_spec (s : PState) :
    (stopRequested s).mode = s.mode ∧
    (stopRequested s).envSub.watcher = none ∧
    (stopRequested s).machSub.watcher = none ∧
    (stopRequested s).tombDying = true ∧
    (stopRequested s).tombReason = (Kill s none).tombReason := by
  by_cases h : s.tombDying <;>
    simp [stopRequested, Kill, h, invalidate_watcher_none]

theorem stop_spec (s : PState) :
    (Stop s).1.mode = Mode.done ∧
    (Stop s).1.envSub.watcher = none ∧
    (Stop s).1.machSub.watcher = none ∧
    (Stop s).1.tombDying = true ∧
    (Stop s).1.tombReason = (Kill s none).tombReason ∧
    (Stop s).2 = (Stop s).1.tombReason := by
  obtain ⟨hmo, he, hma, hdy, hre⟩ := stopRequested_spec s
  have h1 := step_cancel_frame (stopRequested s)
  have h2 := step_cancel_frame (step (stopRequested s) Event.cancel)
  have t1 := step_tomb (stopRequested s) Event.cancel
  have t2 := step_tomb (step (stopRequested s) Event.cancel) Event.cancel
  have hS1 : (Stop s).1
      = step (step (stopRequested s) Event.cancel) Event.cancel := rfl
  refine ⟨?_, ?_, ?_, ?_, ?_, rfl⟩
  · rw [hS1]; exact step_cancel_cancel_done (stopRequested s) hdy
  · rw [hS1, h2.2.1, h1.2.1]; exact he
  · rw [hS1, h2.2.2.1, h1.2.2.1]; exact hma
  · rw [hS1, t2.1, t1.1]; exact hdy
  · rw [hS1, t2.2, t1.2]; exact hre

theorem stop_stop (s : PState) : Stop (Stop s).1 = Stop s := by
  obtain ⟨hmo, he, hma, hdy, hre, h2⟩ := stop_spec s
  have hk : Kill (Stop s).1 none = (Stop s).1 := by simp [Kill, hdy]
  have hsr : stopRequested (Stop s).1 = (Stop s).1 := by
    rw [stopRequested, hk, invalidate_of_watcher_none _ he,
      invalidate_of_watcher_none _ hma]
  have h3 : Stop (Stop s).1 = ((Stop s).1, (Stop s).1.tombReason) := by
    generalize hT : (Stop s).1 = t at hsr hmo
    simp [Stop, hsr, step_done t Event.cancel hmo]
  rw [h3, ← h2]

/-- C2: for every run of the controller from its initial state, `Stop`
requests cancellation (marks the tomb dying), proactively invalidates both
watcher-holders, drives the goroutine to `done` (the `Wait` returns only once
the goroutine has exited), and returns the terminal error, which is nil since
the code's only shutdown path is `Kill(nil)`; a second `Stop` call changes
nothing and returns the same terminal outcome, so stopping twice neither
errors nor deadlocks. -/
theorem c2_stop (es : List Event) :
    (Stop (run PState.pInit es)).1.tombDying = true ∧
    (Stop (run PState.pInit es)).1.envSub.watcher = none ∧
    (Stop (run PState.pInit es)).1.machSub.watcher = none ∧
    (Stop (run PState.pInit es)).1.mode = Mode.done ∧
    (Stop (run PState.pInit es)).2 = none ∧
    Stop (Stop (run PState.pInit es)).1 = Stop (run PState.pInit es) := by
  obtain ⟨hmo, he, hma, hdy, hre, h2⟩ := stop_spec (run PState.pInit es)
  have hrt := run_tomb es PState.pInit
  have hdy0 : (run PState.pInit es).tombDying = false := hrt.1
  have hkr : (Kill (run PState.pInit es) none).tombReason = none := by
    simp [Kill, hdy0]
  refine ⟨hdy, he, hma, hmo, ?_, stop_stop _⟩
  rw [h2, hre, hkr]

end JujuState
